import Mathlib

/-!
# Hero-Dash backend: verification of the adaptive decision engine

Shallow embedding of the ML/decision core of the Hero-Dash backend
(`backend/ml_algorithms.py`, `backend/crud.py`) over exact rational
arithmetic.  Python floats are modelled as `ℚ`; database rows are lists
(most-recent-first unless stated otherwise); the per-user database state
is an explicit structure threaded through the update functions.

The one operation the embedding cannot express in `ℚ` is the square root
(`np.std`, coefficient of variation).  Where a claim needs a comparison
`sqrt v / m < c` with `m > 0` we use the equivalent `v < c^2 * m^2`
(squaring both sides, both nonnegative); where a value derived from a
square root merely flows through (the temporal-processing clinical score)
it is passed as an explicit parameter.
-/

/-- The closed set of scenario types (`ml_algorithms.py`, bandit priors). -/
inductive Scenario where
  | ambulance
  | police
  | firetruck
  | train
  | ice_cream
deriving DecidableEq, Repr, Inhabited

/-- One row of the `attempts` table (the fields the decision core reads).
Timestamps are encoded by list position in the callers' query results. -/
structure Attempt where
  scenario_type : Scenario
  success : Bool
  reaction_time : ℚ
  difficulty_level : ℤ
  noise_level : ℚ
deriving DecidableEq, Repr

/-- Python's binary `max` on rationals, written so the kernel can
evaluate it (`Max.max` on `ℚ` goes through a nonreducing instance). -/
def rmax (a b : ℚ) : ℚ := if a ≤ b then b else a

/-- Python's binary `min` on rationals, kernel-evaluable. -/
def rmin (a b : ℚ) : ℚ := if a ≤ b then a else b

/-- Arithmetic mean (`np.mean`); `0` on the empty list (`np.mean([])` is
NaN in the source, and every use guards with a `> 0` comparison that NaN
fails, which `0` fails as well). -/
def ratMean (l : List ℚ) : ℚ := l.sum / l.length

/-- Population variance (`np.var`). -/
def ratVar (l : List ℚ) : ℚ :=
  (l.map (fun y => (y - ratMean l) ^ 2)).sum / l.length

/-- Number of successful attempts in a list. -/
def successCount (l : List Attempt) : ℕ := (l.filter (·.success)).length

/-- The positive reaction times of a list of attempts
(`[a.reaction_time for a in l if a.reaction_time > 0]`). -/
def positiveRTs (l : List Attempt) : List ℚ :=
  (l.map (·.reaction_time)).filter (fun r => decide (0 < r))

-- ============================================================================
-- Spaced repetition (SM-2), `ml_algorithms.update_spaced_repetition`
-- ============================================================================

/-- One row of the `skill_memory` table. Timestamps are rationals
(days since an arbitrary epoch). -/
structure SkillState where
  repetition_number : ℕ
  easiness_factor : ℚ
  interval_days : ℚ
  memory_strength : ℚ
  last_practiced : ℚ
  next_review_date : ℚ
deriving DecidableEq, Repr

/-- The state `update_spaced_repetition` creates when no row exists
(`ml_algorithms.py` lines 193–205). -/
def freshSkill (now : ℚ) : SkillState :=
  { repetition_number := 0
    easiness_factor := 5/2
    interval_days := 0
    memory_strength := 0
    last_practiced := now
    next_review_date := now }

/-- The new interval of `update_spaced_repetition` (lines 208–219): on a
successful recall (`quality >= 3`) the progression 1, 6, `interval ×
easiness`; on a failed recall, restart at 1 day. -/
def sr_interval (s : SkillState) (quality : ℤ) : ℚ :=
  if 3 ≤ quality then
    (if s.repetition_number = 0 then 1
     else if s.repetition_number = 1 then 6
     else s.interval_days * s.easiness_factor)
  else 1

/-- The new repetition count of `update_spaced_repetition`: incremented on
success, reset to 0 on failure. -/
def sr_repetition (s : SkillState) (quality : ℤ) : ℕ :=
  if 3 ≤ quality then s.repetition_number + 1 else 0

/-- The new easiness factor of `update_spaced_repetition` (lines 221–225):
`max(1.3, ef + (0.1 - (5-q)*(0.08 + (5-q)*0.02)))`. -/
def sr_easiness (s : SkillState) (quality : ℤ) : ℚ :=
  rmax (13/10)
    (s.easiness_factor +
      (1/10 - (5 - (quality : ℚ)) * (8/100 + (5 - (quality : ℚ)) * 2/100)))

/-- The SM-2 update applied to an existing skill row
(`ml_algorithms.update_spaced_repetition`, lines 207–230): interval and
repetition first (reading the pre-update easiness), then the easiness
factor, then memory strength and the timestamps. -/
def update_spaced_repetition (s : SkillState) (quality : ℤ) (now : ℚ) :
    SkillState :=
  { repetition_number := sr_repetition s quality
    easiness_factor := sr_easiness s quality
    interval_days := sr_interval s quality
    memory_strength := rmin 1 (s.memory_strength + (quality : ℚ) / 10)
    last_practiced := now
    next_review_date := now + sr_interval s quality }

/-- Applying `update_spaced_repetition` for each quality of `qs` in turn,
starting from the freshly created state. -/
def sm2Run (qs : List ℤ) : SkillState :=
  qs.foldl (fun s q => update_spaced_repetition s q 0) (freshSkill 0)

-- ============================================================================
-- Thompson sampling bandit, `ml_algorithms.update_thompson_sampling`
-- ============================================================================

/-- The per-scenario Beta parameters stored in
`UserLearningProfile.bandit_params` (the JSON blob, decoded). -/
def BanditState : Type := Scenario → ℚ × ℚ

/-- The uniform priors `{"alpha": 1, "beta": 1}` for every scenario
(`thompson_sampling_scenario_selection`, lines 40–46, and the
`models.UserLearningProfile.bandit_params` column default). -/
def initialBandit : BanditState := fun _ => (1, 1)

/-- One row of the `learning_profiles` table (the fields the decision core
writes). -/
structure Profile where
  bandit_params : BanditState
  avg_reaction_time : ℚ
  reaction_time_variance : ℚ

/-- The profile `thompson_sampling_scenario_selection` creates when none
exists (lines 36–50): uniform bandit priors, column defaults elsewhere. -/
def initialProfile : Profile :=
  { bandit_params := initialBandit
    avg_reaction_time := 0
    reaction_time_variance := 0 }

/-- The bandit parameter update of `update_thompson_sampling`
(lines 83–93): learning gain above the 0.4 threshold increments the
selected scenario's alpha by the gain, otherwise its beta by `1 - gain`. -/
def updateBanditParams (b : BanditState) (scenario_type : Scenario)
    (learning_gain : ℚ) : BanditState :=
  fun t =>
    if t = scenario_type then
      (if 4/10 < learning_gain then ((b t).1 + learning_gain, (b t).2)
       else ((b t).1, (b t).2 + (1 - learning_gain)))
    else b t

/-- `ml_algorithms.update_thompson_sampling` (lines 67–94): a silent no-op
when the user has no learning profile, otherwise rewrites the profile with
the updated bandit parameters. -/
def update_thompson_sampling (profile : Option Profile)
    (scenario_type : Scenario) (learning_gain : ℚ) : Option Profile :=
  match profile with
  | none => none
  | some p => some { p with bandit_params := updateBanditParams p.bandit_params scenario_type learning_gain }

-- ============================================================================
-- Learning gain, `ml_algorithms.calculate_learning_gain`
-- ============================================================================

/-- The speed-improvement component of `calculate_learning_gain`
(lines 133–137): `max(0, (baseline_rt - rt)/baseline_rt * 0.2)` when both
the current reaction time and the baseline mean are positive, else 0.
`baselineRTs` is the list of positive reaction times among the past
attempts; its empty-list mean (NaN in the source, failing `> 0`) is
modelled by `ratMean [] = 0`, which fails `> 0` as well. -/
def speedGain (baselineRTs : List ℚ) (reaction_time : ℚ) : ℚ :=
  if 0 < reaction_time ∧ 0 < ratMean baselineRTs then
    rmax 0 ((ratMean baselineRTs - reaction_time) / ratMean baselineRTs * (2/10))
  else 0

/-- `ml_algorithms.calculate_learning_gain` (lines 97–140). `history` is
the query result: all attempts of this (user, scenario), most recent
first; the function keeps the 10 most recent (`limit(10)`). -/
def calculate_learning_gain (history : List Attempt)
    (current_success : Bool) (reaction_time : ℚ) : ℚ :=
  let past_attempts := history.take 10
  if past_attempts.length < 3 then
    (if current_success then 8/10 else 4/10)
  else
    let baseline_success_rate : ℚ :=
      (successCount past_attempts : ℚ) / (past_attempts.length : ℚ)
    let baseline_rts := positiveRTs past_attempts
    let success_gain : ℚ := if current_success then 5/10 else 0
    let improvement_gain : ℚ :=
      if current_success ∧ baseline_success_rate < 7/10 then 3/10 else 1/10
    let speed_gain := speedGain baseline_rts reaction_time
    rmin 1 (success_gain + improvement_gain + speed_gain)

-- ============================================================================
-- Cognitive load, `ml_algorithms.calculate_cognitive_load`
-- ============================================================================

/-- The least-squares slope `np.polyfit(range(len(ys)), ys, 1)[0]` over
the sample points `(0, ys 0), ..., (n-1, ys (n-1))`.  The denominator is
zero only for fewer than two points, which the caller excludes; the guard
returns 0 there. -/
def polyfitSlope (ys : List ℚ) : ℚ :=
  let n : ℚ := ys.length
  let xs : List ℚ := (List.range ys.length).map (fun i => (i : ℚ))
  let sx := xs.sum
  let sy := ys.sum
  let sxy := ((xs.zip ys).map (fun p => p.1 * p.2)).sum
  let sxx := (xs.map (fun x => x ^ 2)).sum
  if n * sxx - sx ^ 2 = 0 then 0
  else (n * sxy - sx * sy) / (n * sxx - sx ^ 2)

/-- The longest run of consecutive failed attempts
(`ml_algorithms.py` lines 304–311). -/
def maxConsecutiveFailures (l : List Attempt) : ℕ :=
  (l.foldl
    (fun (acc : ℕ × ℕ) a =>
      if a.success then (0, acc.2)
      else (acc.1 + 1, max acc.2 (acc.1 + 1)))
    (0, 0)).2

/-- `ml_algorithms.calculate_cognitive_load` (lines 263–322). `recent` is
the query result: the attempts inside the time window, in chronological
order. -/
def calculate_cognitive_load (recent : List Attempt) : ℚ :=
  if recent.length < 3 then 1/2
  else
    let reaction_times := positiveRTs recent
    let success_rate : ℚ := (successCount recent : ℚ) / (recent.length : ℚ)
    if reaction_times = [] then 1/2
    else
      let rt_variance := if 1 < reaction_times.length then ratVar reaction_times else 0
      let rt_normalized_var := rmin 1 (rt_variance / 2)
      let rt_trend_score :=
        if 2 < reaction_times.length then rmax 0 (polyfitSlope reaction_times * 10)
        else 0
      let error_score := 1 - success_rate
      let error_clustering := rmin 1 ((maxConsecutiveFailures recent : ℚ) / 3)
      let cognitive_load :=
        25/100 * rt_normalized_var + 25/100 * rmin 1 rt_trend_score
          + 30/100 * error_score + 20/100 * error_clustering
      rmin 1 (rmax 0 cognitive_load)

-- ============================================================================
-- Flow state, `ml_algorithms.detect_flow_state`
-- ============================================================================

/-- Round-half-even to an integer — the tie-breaking rule of Python's
`round` (applied here to the exact rational value). -/
def roundHalfEven (x : ℚ) : ℤ :=
  let f := ⌊x⌋
  if x - f < 1/2 then f
  else if 1/2 < x - f then f + 1
  else if f % 2 = 0 then f else f + 1

/-- Python's `round(x, 2)`. -/
def round2 (x : ℚ) : ℚ := (roundHalfEven (x * 100) : ℚ) / 100

/-- Python's `f"{x:.1%}"` percentage formatting (one decimal place),
applied to the exact rational value. -/
def fmtPct1 (x : ℚ) : String :=
  let m := roundHalfEven (x * 1000)
  toString (m / 10) ++ "." ++ toString (m % 10) ++ "%"

/-- The result dictionary of `detect_flow_state`.  The source's
`consistency_score` (`1/(1+cv)` with `cv` a square root) is not modelled:
it is returned to the caller but never read by any code under
verification. -/
structure FlowResult where
  in_flow : Bool
  success_rate : ℚ
  recommendation : String
  reason : String
  cognitive_load : ℚ
deriving DecidableEq, Repr

/-- The consistency test of `detect_flow_state` (lines 371–386): the
coefficient of variation `sqrt(variance)/mean` of the positive reaction
times is defined (some positive reaction time exists, so the `999`
marker is not hit, and the mean is positive) and below 0.3.  `sqrt(v)/m <
3/10` with `m > 0` is expressed as `v < (3/10)^2 * m^2` (both sides of
the inequality squared; `ℚ` has no square root). -/
def highConsistency (rts : List ℚ) : Bool :=
  rts ≠ [] ∧ 0 < ratMean rts ∧ ratVar rts < (3/10) ^ 2 * (ratMean rts) ^ 2

/-- The `(recommendation, reason)` pair of `detect_flow_state`
(lines 390–402). -/
def flowAdvice (success_rate : ℚ) (high_consistency : Bool) : String × String :=
  if success_rate < 4/10 then
    ("decrease_difficulty",
      "Low success rate (" ++ fmtPct1 success_rate ++ ") indicates frustration")
  else if 9/10 < success_rate then
    ("increase_difficulty",
      "High success rate (" ++ fmtPct1 success_rate ++ ") indicates under-challenge")
  else if high_consistency = false then
    ("check_attention", "High variability suggests attention issues or fatigue")
  else ("maintain", "Optimal challenge-skill balance detected")

/-- `ml_algorithms.detect_flow_state` (lines 325–411). `attempts` is the
analysed set (the 20 most recent, or the session window when a session id
is supplied — both are query results passed in as a list);
`load_window` is the separate time-windowed query that
`calculate_cognitive_load` runs on. -/
def detect_flow_state (attempts : List Attempt) (load_window : List Attempt) :
    FlowResult :=
  if attempts.length < 5 then
    { in_flow := false
      reason := "insufficient_data"
      recommendation := "continue"
      cognitive_load := 1/2
      success_rate := 0 }
  else
    let success_rate : ℚ := (successCount attempts : ℚ) / (attempts.length : ℚ)
    let reaction_times := positiveRTs attempts
    let high_consistency := highConsistency reaction_times
    let in_flow := decide (6/10 ≤ success_rate ∧ success_rate ≤ 85/100) && high_consistency
    { in_flow := in_flow
      success_rate := success_rate
      recommendation := (flowAdvice success_rate high_consistency).1
      reason := (flowAdvice success_rate high_consistency).2
      cognitive_load := calculate_cognitive_load load_window }

-- ============================================================================
-- Clinical scoring, `ml_algorithms.calculate_clinical_scores`
-- ============================================================================

/-- Figure-ground discrimination score (lines 433–439): success rate over
the attempts with noise level above 0.5, as a percentage; 50 when no such
attempt exists. -/
def figureGroundScore (l : List Attempt) : ℚ :=
  let high_noise := l.filter (fun a => decide ((1:ℚ)/2 < a.noise_level))
  if high_noise = [] then 50
  else (successCount high_noise : ℚ) / (high_noise.length : ℚ) * 100

/-- Temporal processing score (lines 441–450):
`max(0, 100 - std/mean*100)` over the positive reaction times when at
least two exist and their mean is positive, 50 otherwise.  `rt_std`
stands for `np.std(reaction_times)` — a square root, the one operation
outside `ℚ` — and is passed in as a parameter. -/
def temporalScore (l : List Attempt) (rt_std : ℚ) : ℚ :=
  let rts := positiveRTs l
  if 1 < rts.length then
    (if 0 < ratMean rts then rmax 0 (100 - rt_std / ratMean rts * 100) else 50)
  else 50

/-- Sound localization/discrimination score (lines 452–454): overall
success rate as a percentage. -/
def soundLocalizationScore (l : List Attempt) : ℚ :=
  (successCount l : ℚ) / (l.length : ℚ) * 100

/-- The result dictionary of `calculate_clinical_scores`. -/
structure ClinicalScores where
  figure_ground_score : ℚ
  temporal_processing_score : ℚ
  sound_localization_score : ℚ
  auditory_attention_span : ℚ
  composite_score : ℚ
deriving DecidableEq, Repr

/-- `ml_algorithms.calculate_clinical_scores` (lines 418–468). `attempts`
is the user's attempt history, most recent first (the query orders by
timestamp descending; the function keeps the 100 most recent).
`attention_span` stands for `calculate_attention_span(db, user_id)` — a
median over session-windowed queries, passed in as a parameter; it enters
the result dictionary but not the composite. -/
def calculate_clinical_scores (attempts : List Attempt) (rt_std : ℚ)
    (attention_span : ℚ) : Option ClinicalScores :=
  let all_attempts := attempts.take 100
  if all_attempts.length < 20 then none
  else some
    { figure_ground_score := round2 (figureGroundScore all_attempts)
      temporal_processing_score := round2 (temporalScore all_attempts rt_std)
      sound_localization_score := round2 (soundLocalizationScore all_attempts)
      auditory_attention_span := round2 attention_span
      composite_score := round2
        ((figureGroundScore all_attempts + temporalScore all_attempts rt_std
            + soundLocalizationScore all_attempts) / 3) }

-- ============================================================================
-- Due-for-review query, `ml_algorithms.get_due_for_review`
-- ============================================================================

/-- A `skill_memory` row together with its current decayed strength —
the value `calculate_memory_decay` computes for it
(`strength * exp(-decay_rate * elapsed)`, clamped to [0,1]; the
exponential is outside `ℚ`, so the decayed value enters as data). -/
structure DueSkill where
  scenario_type : Scenario
  next_review_date : ℚ
  current_strength : ℚ
deriving DecidableEq, Repr

/-- Stable insertion into a list sorted by descending second component —
one step of Python's stable `list.sort(key=urgency, reverse=True)`: the
new element goes after all elements with an equal or larger key. -/
def insertDescBySnd (x : Scenario × ℚ) : List (Scenario × ℚ) → List (Scenario × ℚ)
  | [] => [x]
  | y :: ys => if y.2 < x.2 then x :: y :: ys else y :: insertDescBySnd x ys

/-- Stable sort by descending second component
(`urgent_skills.sort(key=lambda x: x[1], reverse=True)`). -/
def sortDescBySnd (l : List (Scenario × ℚ)) : List (Scenario × ℚ) :=
  l.foldl (fun acc x => insertDescBySnd x acc) []

/-- Sorted by non-increasing second component. -/
def SortedDesc (l : List (Scenario × ℚ)) : Prop :=
  List.Pairwise (fun p q => q.2 ≤ p.2) l

/-- `ml_algorithms.get_due_for_review` (lines 235–256): the scenarios
whose next review date has passed, ranked by descending urgency
`1 - current_strength`. -/
def get_due_for_review (skills : List DueSkill) (now : ℚ) : List Scenario :=
  let due := skills.filter (fun s => decide (s.next_review_date ≤ now))
  let urgent_skills := due.map (fun s => (s.scenario_type, 1 - s.current_strength))
  (sortDescBySnd urgent_skills).map (fun p => p.1)

-- ============================================================================
-- Recommendation arbiter, `crud.get_recommendation`
-- ============================================================================

/-- One row of the `users` table (the fields `crud.py` reads). -/
structure User where
  current_level : ℤ
  total_score : ℤ
deriving DecidableEq, Repr

/-- The recommendation payload of `crud.get_recommendation`. -/
structure Recommendation where
  type : Scenario
  action : String
  visual_cue : String
  difficulty_level : ℤ
  noise_level : ℚ
  speed_modifier : ℚ
  reason : String
  cognitive_load : ℚ
  in_flow_state : Bool
deriving DecidableEq, Repr

/-- The static `scenario_map` of `crud.get_recommendation` (lines 243–249)
as `(action, visual_cue)`.  The source's `.get(..., ambulance)` fallback
is for unrecognised scenario strings, which the closed `Scenario` type
cannot represent. -/
def scenario_map (t : Scenario) : String × String :=
  match t with
  | .ambulance => ("Move Right", "Flashing Red/White Lights")
  | .police => ("Stay Center", "Flashing Blue/Red Lights")
  | .firetruck => ("Move Left", "Flashing Red Lights")
  | .train => ("Stop", "Railway Crossing")
  | .ice_cream => ("Slow Down", "Ice Cream Truck")

/-- The five scenario types in the iteration order of the source's
`all_types` list / `stats` dict. -/
def allTypes : List Scenario :=
  [.ambulance, .police, .firetruck, .train, .ice_cream]

/-- Python's `int()` truncation toward zero on a rational. -/
def pyInt (x : ℚ) : ℤ := if 0 ≤ x then ⌊x⌋ else -⌊-x⌋

/-- The weakest-link scan of `crud.get_recommendation` (lines 186–207):
per-type failure rates over the recent attempts, keeping the first type
(in `allTypes` order) whose failure rate strictly exceeds the best so
far, starting from -1; types without attempts are skipped. -/
def weakestLink (recent : List Attempt) : Option Scenario × ℚ :=
  allTypes.foldl
    (fun acc t =>
      let n := (recent.filter (fun a => decide (a.scenario_type = t))).length
      if 0 < n then
        let fail_rate : ℚ :=
          ((recent.filter (fun a => decide (a.scenario_type = t) && !a.success)).length : ℚ)
            / (n : ℚ)
        if acc.2 < fail_rate then (some t, fail_rate) else acc
      else acc)
    (none, -1)

/-- Priority 3 of the arbiter (lines 180–214): weakness targeting with a
uniform-random fallback ("Balanced rotation"); `random_choice` stands for
`random.choice(all_types)`. -/
def weaknessSelection (recent : List Attempt) (random_choice : Scenario) :
    Scenario × String :=
  match weakestLink recent with
  | (some w, highest_fail_rate) =>
      if 3/10 < highest_fail_rate then
        (w, "Targeted practice for weakness (" ++ toString (pyInt (highest_fail_rate * 100))
          ++ "% failure rate)")
      else (random_choice, "Balanced rotation")
  | (none, _) => (random_choice, "Balanced rotation")

/-- The difficulty modulation of the arbiter (lines 216–226): a speed
modifier and the explanatory text appended to the reason. -/
def flowDifficultyAdjust (flow : FlowResult) (reason : String) : ℚ × String :=
  if flow.recommendation = "decrease_difficulty" then
    (8/10, reason ++ " | Difficulty reduced (cognitive load management)")
  else if flow.recommendation = "increase_difficulty" then
    (13/10, reason ++ " | Difficulty increased (in flow state)")
  else if flow.in_flow then (1, reason ++ " | Optimal challenge-skill balance")
  else (1, reason)

/-- The streak bonus (lines 228–240): the length of the run of successes
at the head of the 5 most recent attempts; at 3 or more, ×1.1 on the
speed modifier. -/
def streakBonusAdjust (sm : ℚ × String) (streak : ℕ) : ℚ × String :=
  if 3 ≤ streak then (sm.1 * (11/10), sm.2 ++ " | Streak bonus") else sm

/-- `crud.get_recommendation` (lines 135–267).  The database queries and
the two random draws enter as parameters: `skills` the user's
`skill_memory` rows with their decayed strengths, `ts_scenario` and
`learning_potential` the Thompson-sampling draw, `flow_attempts` the
20-most-recent query that `detect_flow_state` analyses, `load_window`
the time-windowed query of `calculate_cognitive_load`,
`recent_attempts` the user's attempts most recent first (the source
queries the 20 most recent for weakness stats and the 5 most recent for
the streak), and `random_choice` the `random.choice` fallback draw. -/
def get_recommendation (user : Option User) (skills : List DueSkill) (now : ℚ)
    (ts_scenario : Scenario) (learning_potential : ℚ)
    (flow_attempts load_window : List Attempt)
    (recent_attempts : List Attempt) (random_choice : Scenario) :
    Option Recommendation :=
  match user with
  | none => none
  | some u =>
    let due_scenarios := get_due_for_review skills now
    let flow_analysis := detect_flow_state flow_attempts load_window
    let sel : Scenario × String :=
      match due_scenarios, decide (flow_analysis.cognitive_load < 7/10) with
      | d :: _, true => (d, "Memory retention review (Spaced Repetition)")
      | _, _ =>
        if 3/10 < learning_potential then
          (ts_scenario, "Optimal learning opportunity detected (Thompson Sampling)")
        else weaknessSelection (recent_attempts.take 20) random_choice
    let streak := ((recent_attempts.take 5).takeWhile (fun a => a.success)).length
    let adj := streakBonusAdjust (flowDifficultyAdjust flow_analysis sel.2) streak
    let details := scenario_map sel.1
    let base_noise := rmin (8/10) (2/10 + ((u.current_level : ℚ) - 1) * (6/100))
    let adjusted_noise := base_noise * (1 - flow_analysis.cognitive_load * (3/10))
    some
      { type := sel.1
        action := details.1
        visual_cue := details.2
        difficulty_level := u.current_level
        noise_level := round2 adjusted_noise
        speed_modifier := round2 adj.1
        reason := adj.2
        cognitive_load := round2 flow_analysis.cognitive_load
        in_flow_state := flow_analysis.in_flow }

-- ============================================================================
-- Attempt recording, `crud.create_attempt`
-- ============================================================================

/-- The request body of `POST /attempts/` (`schemas.AttemptCreate`,
single-user embedding so without `user_id`). -/
structure AttemptCreate where
  scenario_type : Scenario
  success : Bool
  reaction_time : ℚ
  difficulty_level : ℤ
deriving DecidableEq, Repr

/-- The per-user database state `create_attempt` reads and writes. -/
structure GameState where
  user : User
  attempts : List Attempt
  profile : Option Profile
  skills : Scenario → Option SkillState

/-- The attempt row `create_attempt` stores (lines 47–56): the noise
level is derived from the difficulty level.  (The derived
`speed_modifier` column is also stored but never read back by the
decision core, and is not modelled on `Attempt`.) -/
def mkAttempt (a : AttemptCreate) : Attempt :=
  { scenario_type := a.scenario_type
    success := a.success
    reaction_time := a.reaction_time
    difficulty_level := a.difficulty_level
    noise_level := rmin (8/10) (2/10 + ((a.difficulty_level : ℚ) - 1) * (6/100)) }

/-- The spaced-repetition quality score of `create_attempt`
(lines 84–99). -/
def attemptQuality (success : Bool) (reaction_time : ℚ) : ℤ :=
  if success then
    (if 0 < reaction_time then
      (if reaction_time < 3/2 then 5
       else if reaction_time < 5/2 then 4
       else if reaction_time < 4 then 3
       else 2)
     else 4)
  else (if 5 < reaction_time then 0 else 1)

/-- The learning gain `create_attempt` computes (lines 72–76): the
attempt row is committed first, so the (user, scenario) query that
`calculate_learning_gain` runs already contains the new attempt at the
head. -/
def createAttemptGain (st : GameState) (a : AttemptCreate) : ℚ :=
  calculate_learning_gain
    ((mkAttempt a :: st.attempts).filter
      (fun x => decide (x.scenario_type = a.scenario_type)))
    a.success a.reaction_time

/-- Step 5 of `create_attempt` (lines 107–127): when a profile exists,
refresh its running reaction-time average and variance from the 20 most
recent timed attempts; no-op otherwise (and when no timed attempt
exists). -/
def profileRefresh (attempts : List Attempt) (profile : Option Profile) :
    Option Profile :=
  match profile with
  | none => none
  | some p =>
    let recent_rts :=
      ((attempts.filter (fun x => decide (0 < x.reaction_time))).map
        (fun x => x.reaction_time)).take 20
    if recent_rts = [] then some p
    else some { p with
      avg_reaction_time := ratMean recent_rts
      reaction_time_variance := ratVar recent_rts }

/-- `crud.create_attempt` (lines 35–129): store the attempt, update the
user's score and level, compute the learning gain, update the bandit,
compute the quality, update the spaced-repetition state (creating it if
absent), refresh the profile averages. -/
def create_attempt (st : GameState) (a : AttemptCreate) (now : ℚ) : GameState :=
  let attempts' := mkAttempt a :: st.attempts
  let score' := if a.success then st.user.total_score + 100 else st.user.total_score
  let level' :=
    if a.success ∧ score' % 500 = 0 then st.user.current_level + 1
    else st.user.current_level
  let quality := attemptQuality a.success a.reaction_time
  let skill₀ :=
    match st.skills a.scenario_type with
    | some s => s
    | none => freshSkill now
  { user := { current_level := level', total_score := score' }
    attempts := attempts'
    profile := profileRefresh attempts'
      (update_thompson_sampling st.profile a.scenario_type (createAttemptGain st a))
    skills := fun t =>
      if t = a.scenario_type then some (update_spaced_repetition skill₀ quality now)
      else st.skills t }

theorem rmax_eq_max (a b : ℚ) : rmax a b = max a b := by
  simp only [rmax, max_def]

theorem rmin_eq_min (a b : ℚ) : rmin a b = min a b := by
  simp only [rmin, min_def]

theorem sr_easiness_ge (s : SkillState) (q : ℤ) :
    13/10 ≤ sr_easiness s q := by
  rw [sr_easiness, rmax_eq_max]
  exact le_max_left _ _

theorem sm2_foldl_easiness_ge (qs : List ℤ) :
    ∀ s : SkillState, 13/10 ≤ s.easiness_factor →
      13/10 ≤ (qs.foldl (fun s q => update_spaced_repetition s q 0) s).easiness_factor := by
  induction qs with
  | nil => intro s hs; simpa using hs
  | cons q qs ih =>
      intro s _
      simpa [List.foldl] using ih (update_spaced_repetition s q 0) (sr_easiness_ge s q)

-- ============================================================================
-- Claim theorems: C1, C3
-- ============================================================================

/-- C1 (counterexample): from a fresh state, after three quality-5 updates
the interval is 16.2 days, not the claimed 6 × 2.5 = 15 — the difference is
1.2 days, far beyond floating tolerance. -/
theorem c1_interval_counterexample :
    (sm2Run [5, 5, 5]).interval_days = 81/5 ∧
      1 ≤ |(sm2Run [5, 5, 5]).interval_days - 6 * (5/2)| := by
  constructor
  · norm_num [sm2Run, List.foldl, update_spaced_repetition, freshSkill,
      sr_interval, sr_repetition, sr_easiness, rmax]
  · norm_num [sm2Run, List.foldl, update_spaced_repetition, freshSkill,
      sr_interval, sr_repetition, sr_easiness, rmax]
    rw [abs_of_nonneg (by norm_num : (0:ℚ) ≤ 6/5)]
    norm_num

/-- C1 (amended): the quality sequence [5,5,5,5] from a fresh state yields
the interval sequence [1, 6, 6×2.7, 6×2.7×2.8] = [1, 6, 16.2, 45.36] —
the easiness factor has already grown by 0.1 per perfect-quality update
when it is multiplied in — and the repetition count 1, 2, 3, 4 is
monotonically non-decreasing. -/
theorem c1_sm2_quality5_sequence :
    (sm2Run [5]).interval_days = 1 ∧
      (sm2Run [5, 5]).interval_days = 6 ∧
      (sm2Run [5, 5, 5]).interval_days = 6 * (27/10) ∧
      (sm2Run [5, 5, 5, 5]).interval_days = 6 * (27/10) * (28/10) ∧
      (sm2Run [5]).repetition_number = 1 ∧
      (sm2Run [5, 5]).repetition_number = 2 ∧
      (sm2Run [5, 5, 5]).repetition_number = 3 ∧
      (sm2Run [5, 5, 5, 5]).repetition_number = 4 := by
  refine ⟨?_, ?_, ?_, ?_, ?_, ?_, ?_, ?_⟩ <;>
    norm_num [sm2Run, List.foldl, update_spaced_repetition, freshSkill,
      sr_interval, sr_repetition, sr_easiness, rmax]

/-- C3 (counterexample): six consecutive quality-5 updates from the fresh
state drive the easiness factor to 3.1, above the claimed upper bound 3.0. -/
theorem c3_easiness_counterexample :
    (sm2Run [5, 5, 5, 5, 5, 5]).easiness_factor = 31/10 ∧
      3 < (sm2Run [5, 5, 5, 5, 5, 5]).easiness_factor := by
  constructor <;>
    norm_num [sm2Run, List.foldl, update_spaced_repetition, freshSkill,
      sr_interval, sr_repetition, sr_easiness, rmax]

/-- C3 (amended): the easiness factor stays at or above 1.3 after every
`update_spaced_repetition` — for any state and any quality — and hence
along every quality sequence from the initial value 2.5; no upper bound
of 3.0 is enforced by the code. -/
theorem c3_easiness_lower_bound :
    (∀ (s : SkillState) (q : ℤ) (now : ℚ),
        13/10 ≤ (update_spaced_repetition s q now).easiness_factor) ∧
      (∀ qs : List ℤ, 13/10 ≤ (sm2Run qs).easiness_factor) := by
  constructor
  · intro s q now
    exact sr_easiness_ge s q
  · intro qs
    exact sm2_foldl_easiness_ge qs (freshSkill 0) (by norm_num [freshSkill])

-- ============================================================================
-- Claim theorems: C4, C6
-- ============================================================================

theorem speedGain_nonneg (rts : List ℚ) (rt : ℚ) : 0 ≤ speedGain rts rt := by
  rw [speedGain]
  split
  · rw [rmax_eq_max]; exact le_max_left _ _
  · exact le_refl 0

theorem speedGain_le (rts : List ℚ) (rt : ℚ) : speedGain rts rt ≤ 2/10 := by
  rw [speedGain]
  split
  · rename_i h
    rw [rmax_eq_max]
    refine max_le (by norm_num) ?_
    have hm : 0 < ratMean rts := h.2
    have hrt : 0 < rt := h.1
    have : (ratMean rts - rt) / ratMean rts ≤ 1 := by
      rw [div_le_one hm]; linarith
    nlinarith
  · norm_num

/-- C4: for a user with a learning profile, every Thompson-sampling update
with gain `g ∈ [0,1]` changes exactly one parameter of exactly one
scenario — `alpha += g` when `g > 0.4`, else `beta += (1-g)` — leaves all
other scenarios untouched, never decreases any parameter, and preserves
positivity of all alphas and betas. -/
theorem c4_bandit_update_invariants (p : Profile) (s : Scenario) (g : ℚ)
    (hg0 : 0 ≤ g) (hg1 : g ≤ 1)
    (hpos : ∀ t, 0 < (p.bandit_params t).1 ∧ 0 < (p.bandit_params t).2) :
    ∃ p', update_thompson_sampling (some p) s g = some p' ∧
      (∀ t, t ≠ s → p'.bandit_params t = p.bandit_params t) ∧
      (4/10 < g →
        (p'.bandit_params s).1 = (p.bandit_params s).1 + g ∧
          (p.bandit_params s).1 < (p'.bandit_params s).1 ∧
          (p'.bandit_params s).2 = (p.bandit_params s).2) ∧
      (¬ 4/10 < g →
        (p'.bandit_params s).2 = (p.bandit_params s).2 + (1 - g) ∧
          (p.bandit_params s).2 < (p'.bandit_params s).2 ∧
          (p'.bandit_params s).1 = (p.bandit_params s).1) ∧
      (∀ t, (p.bandit_params t).1 ≤ (p'.bandit_params t).1 ∧
        (p.bandit_params t).2 ≤ (p'.bandit_params t).2) ∧
      (∀ t, 0 < (p'.bandit_params t).1 ∧ 0 < (p'.bandit_params t).2) := by
  refine ⟨_, rfl, ?_, ?_, ?_, ?_, ?_⟩
  · intro t ht
    simp [updateBanditParams, ht]
  · intro hg
    simp [updateBanditParams, hg]
    linarith
  · intro hg
    simp [updateBanditParams, hg]
    linarith
  · intro t
    by_cases ht : t = s
    · subst ht
      by_cases hg : 4/10 < g <;> simp [updateBanditParams, hg] <;>
        first
        | (constructor <;> linarith)
        | linarith
    · simp [updateBanditParams, ht]
  · intro t
    have := hpos t
    by_cases ht : t = s
    · subst ht
      by_cases hg : 4/10 < g <;> simp [updateBanditParams, hg] <;>
        first
        | (constructor <;> linarith [(hpos t).1, (hpos t).2])
        | linarith [(hpos t).1, (hpos t).2]
    · simpa [updateBanditParams, ht] using hpos t

theorem c4_bandit_update_invariants_witness :
    ∃ p', update_thompson_sampling (some initialProfile) Scenario.ambulance (1/2) = some p' ∧
      (∀ t, 0 < (p'.bandit_params t).1 ∧ 0 < (p'.bandit_params t).2) := by
  obtain ⟨p', heq, _, _, _, _, hpos⟩ :=
    c4_bandit_update_invariants initialProfile Scenario.ambulance (1/2)
      (by norm_num) (by norm_num)
      (fun t => by norm_num [initialProfile, initialBandit])
  exact ⟨p', heq, hpos⟩

/-- C6: `calculate_learning_gain` always returns a value in [0,1] — for
every history (including empty and untimed), success flag and reaction
time (including 0) — and the speed component is 0 whenever the current
reaction time or the baseline mean is not positive.  (All arithmetic is
exact rational arithmetic: no NaN can arise in the embedding; the
source's NaN baseline mean over an empty list fails the same `> 0` guard
that `ratMean [] = 0` fails.) -/
theorem c6_learning_gain_bounds :
    (∀ (history : List Attempt) (success : Bool) (rt : ℚ),
        0 ≤ calculate_learning_gain history success rt ∧
          calculate_learning_gain history success rt ≤ 1) ∧
      (∀ (rts : List ℚ) (rt : ℚ), rt ≤ 0 ∨ ratMean rts ≤ 0 →
        speedGain rts rt = 0) := by
  constructor
  · intro history success rt
    rw [calculate_learning_gain]
    split
    · cases success <;> norm_num
    · have h0 := speedGain_nonneg (positiveRTs (history.take 10)) rt
      have h2 := speedGain_le (positiveRTs (history.take 10)) rt
      rw [rmin_eq_min]
      constructor
      · refine le_min (by norm_num) ?_
        split_ifs <;> cases success <;> simp_all <;> linarith
      · exact min_le_left _ _
  · intro rts rt h
    rw [speedGain]
    split
    · rename_i hcond
      rcases h with h | h <;> [linarith [hcond.1]; linarith [hcond.2]]
    · rfl

theorem c6_learning_gain_bounds_witness :
    speedGain [] 0 = 0 ∧
      (0 ≤ calculate_learning_gain [] true 0 ∧
        calculate_learning_gain [] true 0 ≤ 1) :=
  ⟨c6_learning_gain_bounds.2 [] 0 (Or.inl le_rfl),
    c6_learning_gain_bounds.1 [] true 0⟩

-- ============================================================================
-- Claim theorems: C7, C8
-- ============================================================================

/-- C7: `calculate_cognitive_load` always returns a value in [0,1], and
whenever fewer than 3 attempts fall in the window the result is exactly
0.5. -/
theorem c7_cognitive_load_bounds (recent : List Attempt) :
    (0 ≤ calculate_cognitive_load recent ∧ calculate_cognitive_load recent ≤ 1) ∧
      (recent.length < 3 → calculate_cognitive_load recent = 1/2) := by
  unfold calculate_cognitive_load
  by_cases h1 : recent.length < 3
  · rw [if_pos h1]
    exact ⟨⟨by norm_num, by norm_num⟩, fun _ => rfl⟩
  · rw [if_neg h1]
    refine ⟨?_, fun h => absurd h h1⟩
    by_cases hp : positiveRTs recent = []
    · simp only [hp, if_pos]
      norm_num
    · simp only [hp, if_neg, if_false]
      rw [rmin_eq_min, rmax_eq_max]
      exact ⟨le_min (by norm_num) (le_max_left _ _), min_le_left _ _⟩

theorem c7_cognitive_load_bounds_witness :
    calculate_cognitive_load [] = 1/2 :=
  (c7_cognitive_load_bounds []).2 (by norm_num)

/-- C8: with at least 5 analysed attempts, `detect_flow_state` reports
`in_flow = true` exactly when the success rate lies in [0.60, 0.85] and
the coefficient of variation of the positive reaction times is defined
and below 0.3 (expressed squared: `variance < (3/10)^2 * mean^2` with a
positive mean); with fewer than 5 it reports "insufficient_data" with
`in_flow = false` and neutral cognitive load 0.5. -/
theorem c8_flow_state_criteria (attempts load_window : List Attempt) :
    (attempts.length < 5 →
      (detect_flow_state attempts load_window).in_flow = false ∧
        (detect_flow_state attempts load_window).reason = "insufficient_data" ∧
        (detect_flow_state attempts load_window).cognitive_load = 1/2) ∧
      (5 ≤ attempts.length →
        ((detect_flow_state attempts load_window).in_flow = true ↔
          (6/10 ≤ (successCount attempts : ℚ) / (attempts.length : ℚ) ∧
              (successCount attempts : ℚ) / (attempts.length : ℚ) ≤ 85/100) ∧
            (positiveRTs attempts ≠ [] ∧
              0 < ratMean (positiveRTs attempts) ∧
              ratVar (positiveRTs attempts) <
                (3/10) ^ 2 * (ratMean (positiveRTs attempts)) ^ 2))) := by
  constructor
  · intro h
    simp [detect_flow_state, h]
  · intro h
    have h5 : ¬ attempts.length < 5 := by omega
    simp only [detect_flow_state, if_neg h5, Bool.and_eq_true, decide_eq_true_iff,
      highConsistency]

theorem c8_flow_state_criteria_witness :
    (detect_flow_state [] []).in_flow = false ∧
      (detect_flow_state [] []).reason = "insufficient_data" ∧
      (detect_flow_state [] []).cognitive_load = 1/2 :=
  (c8_flow_state_criteria [] []).1 (by norm_num)

-- ============================================================================
-- Claim theorems: C9
-- ============================================================================

/-- C9: `calculate_clinical_scores` returns no score below 20 attempts
(over the 100 most recent) and otherwise a result whose composite is the
arithmetic mean of the figure-ground, temporal-processing and
sound-localization sub-scores (rounded to two decimals like every
returned field); the attention-span metric does not enter the composite —
changing it leaves the composite unchanged. -/
theorem c9_clinical_scores (attempts : List Attempt) (rt_std a₁ a₂ : ℚ) :
    ((attempts.take 100).length < 20 →
      calculate_clinical_scores attempts rt_std a₁ = none) ∧
      (∀ sc, calculate_clinical_scores attempts rt_std a₁ = some sc →
        sc.composite_score = round2
          ((figureGroundScore (attempts.take 100)
              + temporalScore (attempts.take 100) rt_std
              + soundLocalizationScore (attempts.take 100)) / 3) ∧
          (calculate_clinical_scores attempts rt_std a₂).map
              (fun s => s.composite_score) = some sc.composite_score) := by
  constructor
  · intro h
    simp only [calculate_clinical_scores]
    rw [if_pos h]
  · intro sc hsc
    simp only [calculate_clinical_scores] at hsc ⊢
    by_cases h : (attempts.take 100).length < 20
    · rw [if_pos h] at hsc
      exact absurd hsc (by simp)
    · rw [if_neg h] at hsc
      rw [if_neg h]
      have hrec := Option.some.inj hsc
      subst hrec
      exact ⟨rfl, rfl⟩

theorem roundHalfEven_intCast (n : ℤ) : roundHalfEven (n : ℚ) = n := by
  norm_num [roundHalfEven, Int.floor_intCast]

theorem round2_intCast (n : ℤ) : round2 (n : ℚ) = n := by
  have h : ((n : ℚ)) * 100 = ((n * 100 : ℤ) : ℚ) := by push_cast; ring
  rw [round2, h, roundHalfEven_intCast]
  push_cast
  field_simp

theorem c9_clinical_scores_witness :
    ∃ sc, calculate_clinical_scores
        (List.replicate 20 (Attempt.mk Scenario.ambulance true 1 1 1)) 0 300 = some sc ∧
      sc.composite_score = 100 := by
  have h100 : round2 (100 : ℚ) = 100 := by
    have := round2_intCast 100
    norm_num at this
    exact this
  have h300 : round2 (300 : ℚ) = 300 := by
    have := round2_intCast 300
    norm_num at this
    exact this
  have e1 : List.take 100 (List.replicate 20 (Attempt.mk Scenario.ambulance true 1 1 1))
      = List.replicate 20 (Attempt.mk Scenario.ambulance true 1 1 1) := by
    rw [List.take_replicate]
    norm_num
  have efg : figureGroundScore (List.replicate 20 (Attempt.mk Scenario.ambulance true 1 1 1))
      = 100 := by
    norm_num [figureGroundScore, successCount, List.filter_replicate]
  have etm : temporalScore (List.replicate 20 (Attempt.mk Scenario.ambulance true 1 1 1)) 0
      = 100 := by
    norm_num [temporalScore, positiveRTs, ratMean, List.map_replicate,
      List.filter_replicate, List.sum_replicate, nsmul_eq_mul, rmax]
  have esl : soundLocalizationScore (List.replicate 20 (Attempt.mk Scenario.ambulance true 1 1 1))
      = 100 := by
    norm_num [soundLocalizationScore, successCount, List.filter_replicate]
  have h : calculate_clinical_scores
      (List.replicate 20 (Attempt.mk Scenario.ambulance true 1 1 1)) 0 300 =
        some (ClinicalScores.mk 100 100 100 300 100) := by
    simp only [calculate_clinical_scores, e1]
    rw [if_neg (by norm_num), efg, etm, esl]
    norm_num [h100, h300]
  refine ⟨_, h, ?_⟩
  have h2 := ((c9_clinical_scores
      (List.replicate 20 (Attempt.mk Scenario.ambulance true 1 1 1)) 0 300 300).2
      (ClinicalScores.mk 100 100 100 300 100) h).1
  rw [h2, e1, efg, etm, esl]
  norm_num [h100]

-- ============================================================================
-- Claim theorems: C5
-- ============================================================================

theorem mem_insertDescBySnd (x a : Scenario × ℚ) (l : List (Scenario × ℚ)) :
    a ∈ insertDescBySnd x l ↔ a = x ∨ a ∈ l := by
  induction l with
  | nil => simp [insertDescBySnd]
  | cons y ys ih =>
      rw [insertDescBySnd]
      split
      · simp [List.mem_cons]
      · simp [List.mem_cons, ih]
        tauto

theorem mem_foldl_insertDescBySnd (l : List (Scenario × ℚ)) :
    ∀ (acc : List (Scenario × ℚ)) (a : Scenario × ℚ),
      a ∈ l.foldl (fun acc x => insertDescBySnd x acc) acc ↔ a ∈ acc ∨ a ∈ l := by
  induction l with
  | nil => simp
  | cons y ys ih =>
      intro acc a
      simp only [List.foldl_cons, ih, mem_insertDescBySnd, List.mem_cons]
      tauto

theorem mem_sortDescBySnd (l : List (Scenario × ℚ)) (a : Scenario × ℚ) :
    a ∈ sortDescBySnd l ↔ a ∈ l := by
  rw [sortDescBySnd, mem_foldl_insertDescBySnd]
  simp

theorem sortedDesc_insertDescBySnd (x : Scenario × ℚ) (l : List (Scenario × ℚ))
    (h : SortedDesc l) : SortedDesc (insertDescBySnd x l) := by
  induction l with
  | nil => simp [insertDescBySnd, SortedDesc]
  | cons y ys ih =>
      rw [insertDescBySnd]
      rw [SortedDesc, List.pairwise_cons] at h
      split
      · rename_i hlt
        refine List.Pairwise.cons ?_ (List.Pairwise.cons h.1 h.2)
        intro z hz
        rcases List.mem_cons.mp hz with rfl | hz
        · exact le_of_lt hlt
        · exact le_trans (h.1 z hz) (le_of_lt hlt)
      · rename_i hge
        refine List.Pairwise.cons ?_ (ih h.2)
        intro z hz
        rcases (mem_insertDescBySnd x z ys).mp hz with rfl | hz
        · exact not_lt.mp hge
        · exact h.1 z hz

theorem sortedDesc_foldl (l : List (Scenario × ℚ)) :
    ∀ acc : List (Scenario × ℚ), SortedDesc acc →
      SortedDesc (l.foldl (fun acc x => insertDescBySnd x acc) acc) := by
  induction l with
  | nil => intro acc h; simpa using h
  | cons y ys ih =>
      intro acc h
      exact ih _ (sortedDesc_insertDescBySnd y acc h)

theorem sortedDesc_sortDescBySnd (l : List (Scenario × ℚ)) :
    SortedDesc (sortDescBySnd l) :=
  sortedDesc_foldl l [] (by simp [SortedDesc])

theorem reason_suffix_exists (flow : FlowResult) (r : String) (streak : ℕ) :
    ∃ s, (streakBonusAdjust (flowDifficultyAdjust flow r) streak).2 = r ++ s := by
  rw [flowDifficultyAdjust, streakBonusAdjust]
  split_ifs <;>
    first
    | exact ⟨_, String.append_assoc _ _ _⟩
    | exact ⟨_, rfl⟩
    | exact ⟨"", (String.append_empty _).symm⟩

/-- C5: whenever a due-for-review skill exists and the cognitive load is
below 0.7, `get_recommendation` returns the scenario of a due skill of
maximal urgency (`1 - current_strength`) and a reason that starts with
the memory-retention text — whatever the bandit draw, the weakness
statistics, the random fallback or the user's attempts. -/
theorem c5_due_review_priority
    (u : User) (skills : List DueSkill) (now : ℚ) (ts_scenario : Scenario)
    (learning_potential : ℚ) (flow_attempts load_window recent_attempts : List Attempt)
    (random_choice : Scenario)
    (hdue : skills.filter (fun s => decide (s.next_review_date ≤ now)) ≠ [])
    (hload : (detect_flow_state flow_attempts load_window).cognitive_load < 7/10) :
    ∃ r, get_recommendation (some u) skills now ts_scenario learning_potential
        flow_attempts load_window recent_attempts random_choice = some r ∧
      (∃ e ∈ skills.filter (fun s => decide (s.next_review_date ≤ now)),
        r.type = e.scenario_type ∧
          ∀ e' ∈ skills.filter (fun s => decide (s.next_review_date ≤ now)),
            1 - e'.current_strength ≤ 1 - e.current_strength) ∧
      (∃ suffix, r.reason = "Memory retention review (Spaced Repetition)" ++ suffix) := by
  set flt := skills.filter (fun s => decide (s.next_review_date ≤ now)) with hflt
  set urgent := flt.map (fun s => (s.scenario_type, 1 - s.current_strength)) with hurg
  have hsortmem : ∀ a, a ∈ sortDescBySnd urgent ↔ a ∈ urgent :=
    fun a => mem_sortDescBySnd urgent a
  -- the sorted list is nonempty
  have hne : sortDescBySnd urgent ≠ [] := by
    obtain ⟨e, he⟩ := List.exists_mem_of_ne_nil flt hdue
    intro hnil
    have : (e.scenario_type, 1 - e.current_strength) ∈ sortDescBySnd urgent := by
      rw [hsortmem]
      exact List.mem_map_of_mem _ he
    rw [hnil] at this
    exact absurd this (List.not_mem_nil _)
  obtain ⟨p, ps, hps⟩ := List.exists_cons_of_ne_nil hne
  -- the head of the sorted list is such a pair of maximal urgency
  have hpmem : p ∈ urgent := by
    rw [← hsortmem, hps]
    exact List.mem_cons_self _ _
  obtain ⟨e, hemem, hep⟩ := List.mem_map.mp hpmem
  have hmax : ∀ e' ∈ flt, 1 - e'.current_strength ≤ p.2 := by
    intro e' he'
    have hmem : (e'.scenario_type, 1 - e'.current_strength) ∈ sortDescBySnd urgent := by
      rw [hsortmem]
      exact List.mem_map_of_mem _ he'
    have hsorted := sortedDesc_sortDescBySnd urgent
    rw [hps] at hmem hsorted
    rcases List.mem_cons.mp hmem with heq | hmem
    · rw [← heq]
    · exact List.rel_of_pairwise_cons hsorted hmem
  -- reduce get_recommendation to the due-review branch
  have hdd : get_due_for_review skills now = p.1 :: ps.map (fun q => q.1) := by
    rw [get_due_for_review]
    simp only [← hflt, ← hurg, hps, List.map_cons]
  have hdec : decide ((detect_flow_state flow_attempts load_window).cognitive_load < 7/10)
      = true := decide_eq_true hload
  have hres : ∃ r, get_recommendation (some u) skills now ts_scenario learning_potential
      flow_attempts load_window recent_attempts random_choice = some r ∧
        r.type = p.1 ∧
        r.reason = (streakBonusAdjust
          (flowDifficultyAdjust (detect_flow_state flow_attempts load_window)
            "Memory retention review (Spaced Repetition)")
          (((recent_attempts.take 5).takeWhile (fun a => a.success)).length)).2 := by
    rw [get_recommendation]
    simp only [hdd, hdec]
    exact ⟨_, rfl, rfl, rfl⟩
  obtain ⟨r, hr, htype, hreason⟩ := hres
  refine ⟨r, hr, ⟨e, hemem, ?_, ?_⟩, ?_⟩
  · rw [htype]
    exact (congrArg Prod.fst hep).symm
  · intro e' he'
    have := hmax e' he'
    rw [← hep] at this
    exact this
  · rw [hreason]
    exact reason_suffix_exists _ _ _

theorem c5_due_review_priority_witness :
    ∃ r, get_recommendation (some (User.mk 1 0)) [DueSkill.mk Scenario.ambulance 0 (1/2)] 0
        Scenario.police 0 [] [] [] Scenario.train = some r ∧
      (∃ e ∈ ([DueSkill.mk Scenario.ambulance 0 (1/2)].filter
            (fun s => decide (s.next_review_date ≤ (0:ℚ)))),
        r.type = e.scenario_type ∧
          ∀ e' ∈ ([DueSkill.mk Scenario.ambulance 0 (1/2)].filter
              (fun s => decide (s.next_review_date ≤ (0:ℚ)))),
            1 - e'.current_strength ≤ 1 - e.current_strength) ∧
      (∃ suffix, r.reason = "Memory retention review (Spaced Repetition)" ++ suffix) :=
  c5_due_review_priority (User.mk 1 0) [DueSkill.mk Scenario.ambulance 0 (1/2)] 0
    Scenario.police 0 [] [] [] Scenario.train
    (by simp [List.filter])
    (by norm_num [detect_flow_state])

-- ============================================================================
-- Claim theorems: C2, C10
-- ============================================================================

theorem profileRefresh_bandit (l : List Attempt) (po : Option Profile) :
    (profileRefresh l po).map (fun p => p.bandit_params)
      = po.map (fun p => p.bandit_params) := by
  cases po with
  | none => rfl
  | some p =>
      rw [profileRefresh]
      split <;> rfl

theorem create_attempt_profile (st : GameState) (a : AttemptCreate) (now : ℚ) :
    (create_attempt st a now).profile
      = profileRefresh (mkAttempt a :: st.attempts)
          (update_thompson_sampling st.profile a.scenario_type (createAttemptGain st a)) :=
  rfl

theorem createAttemptGain_bootstrap (st : GameState) (a : AttemptCreate)
    (hfew : (st.attempts.filter
      (fun x => decide (x.scenario_type = a.scenario_type))).length < 2) :
    createAttemptGain st a = if a.success then 8/10 else 4/10 := by
  rw [createAttemptGain]
  have hf : (mkAttempt a :: st.attempts).filter
      (fun x => decide (x.scenario_type = a.scenario_type))
      = mkAttempt a :: st.attempts.filter
          (fun x => decide (x.scenario_type = a.scenario_type)) := by
    rw [List.filter_cons]
    simp [mkAttempt]
  rw [hf, calculate_learning_gain]
  rw [if_pos]
  simp only [List.length_take, List.length_cons]
  omega

/-- C2 (counterexample): a user with exactly 2 prior ambulance attempts
(both successful, untimed) records a successful untimed ambulance
attempt.  Under the claim the gain would be the bootstrap 0.8 (fewer
than 3 prior attempts), making alpha 1.8; the code includes the freshly
committed attempt in the baseline query, sees 3 attempts, computes gain
0.5 + 0.1 = 0.6, and alpha becomes 1.6. -/
theorem c2_gain_counterexample :
    ((create_attempt
        (GameState.mk (User.mk 1 0)
          [Attempt.mk Scenario.ambulance true 0 1 (2/10),
            Attempt.mk Scenario.ambulance true 0 1 (2/10)]
          (some initialProfile) (fun _ => none))
        (AttemptCreate.mk Scenario.ambulance true 0 1) 0).profile.map
      (fun p => (p.bandit_params Scenario.ambulance).1)) = some (8/5) ∧
      (8/5 : ℚ) ≠ 1 + 8/10 := by
  constructor
  · norm_num [create_attempt, mkAttempt, createAttemptGain, calculate_learning_gain,
      successCount, positiveRTs, ratMean, speedGain, update_thompson_sampling,
      updateBanditParams, initialProfile, initialBandit, profileRefresh,
      List.filter, rmin, rmax]
  · norm_num

/-- C2 (amended): the learning gain of a recorded attempt is computed
from up to the 10 most recent attempts for the (user, scenario)
*including the just-committed current attempt*; the bootstrap values —
0.8 on success (added to alpha), 0.4 on failure (so beta grows by 0.6) —
apply exactly when fewer than 2 *prior* attempts exist (fewer than 3
counting the current one); all other scenarios' parameters are
untouched. -/
theorem c2_learning_gain_bootstrap (st : GameState) (a : AttemptCreate) (now : ℚ)
    (p : Profile) (hp : st.profile = some p)
    (hfew : (st.attempts.filter
      (fun x => decide (x.scenario_type = a.scenario_type))).length < 2) :
    ∃ p', (create_attempt st a now).profile = some p' ∧
      (a.success = true →
        p'.bandit_params a.scenario_type =
          ((p.bandit_params a.scenario_type).1 + 8/10,
            (p.bandit_params a.scenario_type).2)) ∧
      (a.success = false →
        p'.bandit_params a.scenario_type =
          ((p.bandit_params a.scenario_type).1,
            (p.bandit_params a.scenario_type).2 + (1 - 4/10))) ∧
      (∀ t, t ≠ a.scenario_type → p'.bandit_params t = p.bandit_params t) := by
  have hgain := createAttemptGain_bootstrap st a hfew
  have h1 : (create_attempt st a now).profile.map (fun q => q.bandit_params)
      = some (updateBanditParams p.bandit_params a.scenario_type
          (createAttemptGain st a)) := by
    rw [create_attempt_profile, profileRefresh_bandit, hp]
    rfl
  obtain ⟨p', hp', hb⟩ := Option.map_eq_some'.mp h1
  refine ⟨p', hp', ?_, ?_, ?_⟩
  · intro hs
    rw [hb, hgain, hs, updateBanditParams]
    norm_num
  · intro hs
    rw [hb, hgain, hs, updateBanditParams]
    norm_num
  · intro t ht
    rw [hb, updateBanditParams]
    simp [ht]

theorem c2_learning_gain_bootstrap_witness :
    ∃ p', (create_attempt
        (GameState.mk (User.mk 1 0) [] (some initialProfile) (fun _ => none))
        (AttemptCreate.mk Scenario.ambulance true 0 1) 0).profile = some p' ∧
      p'.bandit_params Scenario.ambulance = (1 + 8/10, 1) := by
  obtain ⟨p', hp', hsucc, _, _⟩ := c2_learning_gain_bootstrap
    (GameState.mk (User.mk 1 0) [] (some initialProfile) (fun _ => none))
    (AttemptCreate.mk Scenario.ambulance true 0 1) 0 initialProfile rfl
    (by simp [List.filter])
  refine ⟨p', hp', ?_⟩
  rw [hsucc rfl]
  norm_num [initialProfile, initialBandit]

/-- C10: with no learning profile, `update_thompson_sampling` is a
silent no-op, and since `create_attempt` never creates a profile (only
`thompson_sampling_scenario_selection`, on the recommendation path,
does), any number of attempts recorded before the first recommendation
request leaves the user without bandit state — no parameter ever
changes. -/
theorem c10_no_profile_noop :
    (∀ (s : Scenario) (g : ℚ), update_thompson_sampling none s g = none) ∧
      (∀ (st : GameState) (a : AttemptCreate) (now : ℚ), st.profile = none →
        (create_attempt st a now).profile = none) ∧
      (∀ (st : GameState) (attempts : List AttemptCreate) (now : ℚ),
        st.profile = none →
          ((attempts.foldl (fun s a => create_attempt s a now) st).profile = none)) := by
  have hstep : ∀ (st : GameState) (a : AttemptCreate) (now : ℚ), st.profile = none →
      (create_attempt st a now).profile = none := by
    intro st a now hp
    rw [create_attempt_profile, hp]
    rfl
  refine ⟨fun s g => rfl, hstep, ?_⟩
  intro st attempts
  induction attempts generalizing st with
  | nil => intro now hp; simpa using hp
  | cons a rest ih =>
      intro now hp
      simpa [List.foldl_cons] using ih (create_attempt st a now) now (hstep st a now hp)

theorem c10_no_profile_noop_witness :
    (([AttemptCreate.mk Scenario.ambulance true 1 1,
        AttemptCreate.mk Scenario.police false 2 1].foldl
      (fun s a => create_attempt s a 0)
      (GameState.mk (User.mk 1 0) [] none (fun _ => none))).profile = none) :=
  c10_no_profile_noop.2.2 (GameState.mk (User.mk 1 0) [] none (fun _ => none))
    [AttemptCreate.mk Scenario.ambulance true 1 1,
      AttemptCreate.mk Scenario.police false 2 1] 0 rfl
